import Mathlib

/-!
# Verification of the `twisted.tubes` flow-control protocol

The repository ships the behavioural test suite `twisted/tubes/test/test_tube.py`
and the component/adapter registry `twisted/python/components.py`.  The engine
itself (`twisted/tubes/tube.py`, together with the test fakes in
`twisted/tubes/test/util.py`) is not part of the source tree, so the Tube /
Pump / Fount / Drain state machine below is modelled from the specification
(sections 3 and 4 of the design document), with the test suite used to fix the
observable scenarios.  The adapter registry functions are translated directly
from `components.py`.
-/

namespace Tubes

/-- Modelled from the spec: the upstream Fount role (`FakeFount` in the tests).
`flowIsPaused` is the observable pause state; `pauseCount` / `resumeCount`
record how many `pauseFlow()` / `resumeFlow()` calls the Fount has received,
so that the edge-triggered signalling claims can be stated. -/
structure Fount where
  flowIsPaused : Bool := false
  pauseCount : Nat := 0
  resumeCount : Nat := 0
  deriving Repr, DecidableEq

/-- A fresh, unpaused Fount that has received no signals. -/
def Fount.new : Fount := {}

/-- Modelled from the spec: the state of one Tube (section 3), together with
the observable records of its collaborators.  The downstream Drain is
modelled by `downstreamConnected` plus the lists `downstreamReceived` and
`downstreamProgress` of calls it has observed; the bound Pump is modelled by
the lists `pumpReceived` and `pumpProgressed` of hook invocations.
`downstreamPauseRequested` is true while the downstream Drain has called
`pauseFlow()` on this Tube's Fount face and not yet resumed. -/
structure Tube (α : Type) where
  upstreamFount : Option Fount := none
  downstreamConnected : Bool := false
  downstreamReceived : List α := []
  downstreamProgress : List (Option ℚ) := []
  pumpReceived : List α := []
  pumpProgressed : List (Option ℚ) := []
  pendingBuffer : List α := []
  upstreamPaused : Bool := false
  unbuffering : Bool := false
  downstreamPauseRequested : Bool := false
  deriving Repr, DecidableEq

/-- A freshly constructed Tube: no neighbours, empty buffer, unpaused. -/
def Tube.new {α : Type} : Tube α := {}

/-- Modelled from the spec: the behaviour of a Pump's `received` hook.  For an
input item it yields the list of items it passes to `tube.deliver` (in call
order) and the progress value it returns (`none` is Python's `None`). -/
def PumpModel (α : Type) : Type := α → List α × Option ℚ

/-- Modelled from the spec (section 4.2): the default `Pump.received` calls
`deliver` zero times and returns the null signal. -/
def defaultPump {α : Type} : PumpModel α := fun _ => ([], none)

/-- Modelled from the spec: issue `pauseFlow()` to the upstream Fount and
record the paused edge (`upstreamPaused := true`). -/
def Tube.pauseUpstream {α : Type} (s : Tube α) : Tube α :=
  match s.upstreamFount with
  | some f => { s with
      upstreamFount := some { f with flowIsPaused := true, pauseCount := f.pauseCount + 1 },
      upstreamPaused := true }
  | none => s

/-- Modelled from the spec: issue `resumeFlow()` to the upstream Fount and
record the unpaused edge (`upstreamPaused := false`). -/
def Tube.resumeUpstream {α : Type} (s : Tube α) : Tube α :=
  match s.upstreamFount with
  | some f => { s with
      upstreamFount := some { f with flowIsPaused := false, resumeCount := f.resumeCount + 1 },
      upstreamPaused := false }
  | none => s

/-- Modelled from the spec (section 4.3, `deliver(item)`), called by the Pump:
if a downstream Drain is connected, no unbuffering pass is in progress and the
buffer is empty, forward the item immediately via `downstreamDrain.receive`;
otherwise append to `pendingBuffer` and, edge-triggered, pause the upstream
Fount if one is connected and not already paused.  `pausesOnReceive` models
the downstream Drain's synchronous reaction: when true, its `receive` calls
`pauseFlow()` on this Tube's Fount face before returning (the `SlowDrain`
of the test suite); when false it just records the item (`FakeDrain`). -/
def Tube.deliver {α : Type} (pausesOnReceive : Bool) (s : Tube α) (x : α) : Tube α :=
  if s.downstreamConnected && !s.unbuffering && s.pendingBuffer.isEmpty then
    let s := { s with downstreamReceived := s.downstreamReceived ++ [x] }
    if pausesOnReceive then { s with downstreamPauseRequested := true } else s
  else
    let s := { s with pendingBuffer := s.pendingBuffer ++ [x] }
    if s.upstreamFount.isSome && !s.upstreamPaused then s.pauseUpstream else s

/-- Modelled from the spec (section 4.3, unbuffering pass): deliver buffered
items to the downstream Drain one at a time in FIFO order, removing each from
the buffer only after its `receive` call returns; stop immediately if the
Drain calls `pauseFlow()` from inside `receive`.  Arguments: the Drain's
record of received items so far and the remaining buffer; result: the final
record, the remaining buffer and whether the Drain paused the pass. -/
def passLoop {α : Type} (pausesOnReceive : Bool) (received : List α) :
    List α → List α × List α × Bool
  | [] => (received, [], false)
  | x :: rest =>
    if pausesOnReceive then (received ++ [x], rest, true)
    else passLoop pausesOnReceive (received ++ [x]) rest

/-- Modelled from the spec (section 4.3): run an unbuffering pass.  If the
pass ends with the buffer empty and the upstream was paused, issue exactly one
`resumeFlow()` to the upstream Fount (edge-triggered). -/
def Tube.unbuffer {α : Type} (pausesOnReceive : Bool) (s : Tube α) : Tube α :=
  let r := passLoop pausesOnReceive s.downstreamReceived s.pendingBuffer
  let s := { s with
    downstreamReceived := r.1,
    pendingBuffer := r.2.1,
    downstreamPauseRequested := r.2.2 }
  if s.pendingBuffer.isEmpty && s.upstreamPaused then s.resumeUpstream else s

/-- Modelled from the spec (section 4.3, `flowTo(drain)` on the Fount face):
record the downstream Drain; if the buffer is non-empty, begin an unbuffering
pass. -/
def Tube.flowTo {α : Type} (pausesOnReceive : Bool) (s : Tube α) : Tube α :=
  let s := { s with downstreamConnected := true }
  if s.pendingBuffer.isEmpty then s else s.unbuffer pausesOnReceive

/-- Modelled from the spec (section 4.3): `resumeFlow()` arriving on the Fount
face from the downstream Drain clears its pause request and resumes the
interrupted unbuffering pass from where it left off. -/
def Tube.resumeFlow {α : Type} (pausesOnReceive : Bool) (s : Tube α) : Tube α :=
  Tube.unbuffer pausesOnReceive { s with downstreamPauseRequested := false }

/-- Modelled from the spec (section 4.3, `flowingFrom(fount)` on the Drain
face, after the type check has succeeded): store the upstream Fount; if the
buffer is non-empty, immediately call `pauseFlow()` on the new upstream. -/
def Tube.flowingFrom {α : Type} (s : Tube α) (f : Fount) : Tube α :=
  let s := { s with upstreamFount := some f }
  if s.pendingBuffer.isEmpty then s else s.pauseUpstream

/-- Modelled from the spec (section 4.3, `receive(item)` on the Drain face):
call `pump.received(item)`, performing each `deliver` it makes in order; if it
made zero `deliver` calls and a downstream Drain is connected, forward
`progress(None)` downstream; return the Pump's progress value, or the default
indicator `0.5` if the Pump returned the null signal. -/
def Tube.receive {α : Type} (pump : PumpModel α) (pausesOnReceive : Bool)
    (s : Tube α) (x : α) : Tube α × ℚ :=
  let s := { s with pumpReceived := s.pumpReceived ++ [x] }
  let out := pump x
  let s := out.1.foldl (Tube.deliver pausesOnReceive) s
  let s :=
    if out.1.isEmpty && s.downstreamConnected then
      { s with downstreamProgress := s.downstreamProgress ++ [none] }
    else s
  (s, out.2.getD 0.5)

/-- Modelled from the spec (section 4.3, `progress(amount=None)`): call
`pump.progressed(amount)`; then, if a downstream Drain is connected, forward
`downstreamDrain.progress(amount)`. -/
def Tube.progress {α : Type} (s : Tube α) (amount : Option ℚ) : Tube α :=
  let s := { s with pumpProgressed := s.pumpProgressed ++ [amount] }
  if s.downstreamConnected then
    { s with downstreamProgress := s.downstreamProgress ++ [amount] }
  else s

end Tubes

namespace Components

/-- Translated from `twisted/python/components.py`: a Python `__implements__`
attribute is an interface class or a tuple (or tuple of tuples, …) of
interface classes.  Classes and interfaces are identified by `Nat` ids. -/
inductive TupleTree where
  | leaf : Nat → TupleTree
  | node : List TupleTree → TupleTree
  deriving Repr

/-- Translated from `components.tupleTreeToList`: flatten an instance, or
tree of tuples, into the list of its leaves in order. -/
def tupleTreeToList : TupleTree → List Nat
  | .leaf a => [a]
  | .node ts => ts.attach.flatMap fun t => tupleTreeToList t.1
  decreasing_by
    have h := List.sizeOf_lt_of_mem t.2
    simp only [TupleTree.node.sizeOf_spec]
    omega

/-- Translated from `components.implements`: an object implements
`interfaceClass` iff it has an `__implements__` attribute (`some t` here;
`none` models the attribute being absent) one of whose flattened entries is a
subclass of `interfaceClass`.  The `issubclass` relation of the Python class
hierarchy is a parameter. -/
def implements (issubclass : Nat → Nat → Bool) (objImplements : Option TupleTree)
    (interfaceClass : Nat) : Bool :=
  match objImplements with
  | none => false
  | some t => (tupleTreeToList t).any fun i => issubclass i interfaceClass

/-- Translated from `components.py`: the adapter registry, a mapping from
(class, interface) pairs to adapter classes (`adapterRegistry` dict). -/
def registryGet (reg : List ((Nat × Nat) × Nat)) (key : Nat × Nat) : Option Nat :=
  match reg.find? fun e => e.1 == key with
  | some e => some e.2
  | none => none

/-- Translated from `components.getAdapterClassWithInheritance`: the scan of
`reflect.allYourBase(klass)` — return the adapter registered for the first
base class that has one, and fall off the end (Python's implicit `None`)
otherwise. -/
def baseClassScan (reg : List ((Nat × Nat) × Nat)) (interfaceClass : Nat) :
    List Nat → Option Nat
  | [] => none
  | b :: bs =>
    match registryGet reg (b, interfaceClass) with
    | some a => some a
    | none => baseClassScan reg interfaceClass bs

/-- Translated from `components.getAdapterClassWithInheritance`: look up the
registered adapter for `(klass, interfaceClass)`; on a miss, scan the base
classes of `klass` (the list `allYourBase`, from `reflect.allYourBase`).  In
the source, when the direct lookup misses and no base class has an adapter the
`for` loop falls through and the function implicitly returns `None` — the
`default` parameter appears in no `return` statement. -/
def getAdapterClassWithInheritance (reg : List ((Nat × Nat) × Nat))
    (allYourBase : List Nat) (klass interfaceClass : Nat) (default : Option Nat) :
    Option Nat :=
  match registryGet reg (klass, interfaceClass) with
  | some a => some a
  | none => baseClassScan reg interfaceClass allYourBase

end Components

namespace Tubes

/-- Modelled from the spec (section 4.3, `flowingFrom(fount)` with the type
check): if the Pump declares an `inputType`, validate the Fount's advertised
output capability (`fountImplements`, its `__implements__`-style declaration)
against it via the Capability Query (`Components.implements`); on mismatch
raise `TypeError` (`Except.error`), rejecting the attachment with no state
recorded; otherwise proceed as `Tube.flowingFrom`. -/
def Tube.flowingFromChecked {α : Type} (issubclass : Nat → Nat → Bool)
    (pumpInputType : Option Nat) (fountImplements : Option Components.TupleTree)
    (s : Tube α) (f : Fount) : Except Unit (Tube α) :=
  match pumpInputType with
  | some inputType =>
    if Components.implements issubclass fountImplements inputType then
      .ok (s.flowingFrom f)
    else
      .error ()
  | none => .ok (s.flowingFrom f)

end Tubes

namespace Ownership

/-- Modelled from the spec (section 3 and 4.3, `pump` assignment): the
back-reference wiring between Tubes and Pumps, by object id.  `tubePump t` is
Tube `t`'s `pump` slot; `pumpTube p` is Pump `p`'s `tube` back-reference. -/
structure World where
  tubePump : Nat → Option Nat
  pumpTube : Nat → Option Nat

/-- Modelled from the spec (section 4.3, `pump` assignment): setting Tube
`t`'s pump to `p` clears the previous Pump's `tube` back-reference (if any),
stores `p` in the Tube's pump slot and sets `p`'s `tube` to `t`. -/
def setPump (w : World) (t p : Nat) : World :=
  let w :=
    match w.tubePump t with
    | some pOld => { w with pumpTube := fun q => if q = pOld then none else w.pumpTube q }
    | none => w
  { w with
    tubePump := fun u => if u = t then some p else w.tubePump u,
    pumpTube := fun q => if q = p then some t else w.pumpTube q }

/-- Tube `t` owns Pump `p`: the Tube's pump slot and the Pump's `tube`
back-reference agree. -/
def owns (w : World) (t p : Nat) : Prop :=
  w.tubePump t = some p ∧ w.pumpTube p = some t

instance (w : World) (t p : Nat) : Decidable (owns w t p) := by
  unfold owns; infer_instance

end Ownership

namespace Tubes

/-- The Tube state reached after buffering `xs` behind a paused upstream and
then delivering `k + 1` of them to a downstream Drain that pauses the flow
from inside every `receive` call (the `SlowDrain` scenario), while items
remain.  Used to characterise the interrupted unbuffering pass. -/
def slowMid {α : Type} (xs : List α) (k : Nat) : Tube α :=
  { upstreamFount := some ⟨true, 1, 0⟩,
    downstreamConnected := true,
    downstreamReceived := xs.take (k + 1),
    pendingBuffer := xs.drop (k + 1),
    upstreamPaused := true,
    downstreamPauseRequested := true }

/-- The Tube state reached once the `SlowDrain` scenario has exhausted the
whole buffer `xs`: everything delivered, upstream resumed exactly once. -/
def slowFinal {α : Type} (xs : List α) : Tube α :=
  { upstreamFount := some ⟨false, 1, 1⟩,
    downstreamConnected := true,
    downstreamReceived := xs,
    pendingBuffer := [],
    upstreamPaused := false,
    downstreamPauseRequested := true }

/-- Modelled from the spec (section 4.4): a composite of two Pumps
(`Tube(PumpA(), PumpB())` in the tests) is two Tubes, stage A's Fount face
wired at construction as stage B's upstream; stage A's downstream Drain is
stage B's Drain face, and the composite's public Fount face is stage B's. -/
structure Composite (α : Type) where
  stageA : Tube α
  stageB : Tube α
  deriving Repr, DecidableEq

/-- Modelled from the spec (section 4.4): a freshly constructed two-stage
composite: stage A is already connected downstream (to stage B's Drain face),
stage B has no downstream yet. -/
def Composite.new {α : Type} : Composite α :=
  { stageA := { Tube.new with downstreamConnected := true }, stageB := Tube.new }

/-- Modelled from the spec (section 4.4): `flowTo` on the composite is
`flowTo` on the last stage — the drain is attached to stage B's Fount face and
stage B's continuation is what the caller gets back. -/
def Composite.flowTo {α : Type} (pausesOnReceive : Bool) (c : Composite α) :
    Composite α :=
  { c with stageB := c.stageB.flowTo pausesOnReceive }

/-- Modelled from the spec (sections 4.3 and 4.4): `deliver` on stage A's
Tube.  Its downstream Drain is stage B's Drain face, so forwarding
immediately means running stage B's `receive` (which invokes stage B's Pump);
otherwise stage A buffers as any Tube does. -/
def Composite.deliverA {α : Type} (pumpB : PumpModel α) (c : Composite α)
    (x : α) : Composite α :=
  if c.stageA.downstreamConnected && !c.stageA.unbuffering
      && c.stageA.pendingBuffer.isEmpty then
    { c with stageB := (Tube.receive pumpB false c.stageB x).1 }
  else
    { c with stageA := Tube.deliver false c.stageA x }

/-- Modelled from the spec (sections 4.3 and 4.4): `deliver` on stage B's
Tube goes to the composite's downstream Drain (the terminal Drain `D`). -/
def Composite.deliverB {α : Type} (c : Composite α) (x : α) : Composite α :=
  { c with stageB := Tube.deliver false c.stageB x }

end Tubes

namespace Tubes

/-- While the Tube has no downstream Drain and its upstream is already
paused, `deliver` only appends to the buffer. -/
theorem deliver_buffering_paused {α : Type} (p : Bool) (s : Tube α) (x : α)
    (hd : s.downstreamConnected = false) (hp : s.upstreamPaused = true) :
    Tube.deliver p s x = { s with pendingBuffer := s.pendingBuffer ++ [x] } := by
  simp [Tube.deliver, hd, hp]

/-- Folding `deliver` over a list while disconnected and already paused only
extends the buffer, in order. -/
theorem foldl_deliver_buffering {α : Type} (p : Bool) (xs : List α) (s : Tube α)
    (hd : s.downstreamConnected = false) (hp : s.upstreamPaused = true) :
    xs.foldl (Tube.deliver p) s = { s with pendingBuffer := s.pendingBuffer ++ xs } := by
  induction xs generalizing s with
  | nil => simp
  | cons x xs ih =>
    rw [List.foldl_cons, deliver_buffering_paused p s x hd hp,
      ih { s with pendingBuffer := s.pendingBuffer ++ [x] } hd hp]
    simp

/-- The scenario state of the buffering tests: a fresh Tube attached to a
fresh Fount, then fed `x :: xs` through `deliver` with no downstream Drain.
The upstream has been paused exactly once and everything sits in the buffer
in order. -/
theorem foldl_deliver_fresh {α : Type} (x : α) (xs : List α) :
    (x :: xs).foldl (Tube.deliver false) (Tube.new.flowingFrom Fount.new)
      = { upstreamFount := some ⟨true, 1, 0⟩, pendingBuffer := x :: xs,
          upstreamPaused := true } := by
  rw [List.foldl_cons,
    show Tube.deliver false (Tube.new.flowingFrom Fount.new) x
        = ({ upstreamFount := some ⟨true, 1, 0⟩, pendingBuffer := [x],
             upstreamPaused := true } : Tube α) from rfl,
    foldl_deliver_buffering false xs _ rfl rfl]
  simp

/-- An unbuffering pass over a Drain that never pauses delivers the whole
buffer in order. -/
theorem passLoop_false {α : Type} (r b : List α) :
    passLoop false r b = (r ++ b, [], false) := by
  induction b generalizing r with
  | nil => simp [passLoop]
  | cons y ys ih => simp [passLoop, ih]

/-- An unbuffering pass over a Drain that pauses from inside `receive`
delivers exactly one item and stops. -/
theorem passLoop_true {α : Type} (r : List α) (y : α) (ys : List α) :
    passLoop true r (y :: ys) = (r ++ [y], ys, true) := rfl

/-- One `resumeFlow` from a Drain that re-pauses inside `receive`: exactly
the head of the buffer is delivered; the upstream Fount is resumed (once)
precisely when that empties the buffer. -/
theorem resumeFlow_explicit {α : Type} (f : Fount) (r : List α) (y : α)
    (ys : List α) (d : Bool) :
    Tube.resumeFlow true
      { upstreamFount := some f, downstreamConnected := true,
        downstreamReceived := r, pendingBuffer := y :: ys,
        upstreamPaused := true, downstreamPauseRequested := d }
      = if ys.isEmpty then
          { upstreamFount :=
              some { f with flowIsPaused := false, resumeCount := f.resumeCount + 1 },
            downstreamConnected := true, downstreamReceived := r ++ [y],
            pendingBuffer := [], upstreamPaused := false,
            downstreamPauseRequested := true }
        else
          { upstreamFount := some f, downstreamConnected := true,
            downstreamReceived := r ++ [y], pendingBuffer := ys,
            upstreamPaused := true, downstreamPauseRequested := true } := by
  cases ys <;> simp [Tube.resumeFlow, Tube.unbuffer, passLoop, Tube.resumeUpstream]

/-- The `SlowDrain` scenario: buffer `x :: rest` behind a paused upstream,
attach a Drain that calls `pauseFlow` from inside every `receive`, and let the
Drain issue `k` `resumeFlow` calls.  Exactly `k + 1` items have been
delivered, in order; the upstream Fount receives no signal at all until the
buffer is exhausted, and is then resumed exactly once. -/
theorem slow_iterate {α : Type} (x : α) (rest : List α) (k : Nat)
    (hk : k ≤ rest.length) :
    (Tube.resumeFlow true)^[k]
        (Tube.flowTo true
          ((x :: rest).foldl (Tube.deliver false) (Tube.new.flowingFrom Fount.new)))
      = if k < rest.length then slowMid (x :: rest) k else slowFinal (x :: rest) := by
  induction k with
  | zero =>
    rw [Function.iterate_zero_apply, foldl_deliver_fresh]
    cases rest with
    | nil =>
      simp [Tube.flowTo, Tube.unbuffer, passLoop, Tube.resumeUpstream, slowFinal]
    | cons y ys =>
      simp [Tube.flowTo, Tube.unbuffer, passLoop, slowMid]
  | succ k ih =>
    have hklt : k < rest.length := hk
    have hlt : k + 1 < (x :: rest).length := by simp; omega
    have htake : (x :: rest).take (k + 2)
        = (x :: rest).take (k + 1) ++ [(x :: rest)[k + 1]] := by
      rw [List.take_succ, List.getElem?_eq_getElem hlt]
      rfl
    have hmid : slowMid (x :: rest) k
        = { upstreamFount := some ⟨true, 1, 0⟩, downstreamConnected := true,
            downstreamReceived := (x :: rest).take (k + 1),
            pendingBuffer := (x :: rest)[k + 1] :: (x :: rest).drop (k + 2),
            upstreamPaused := true, downstreamPauseRequested := true } := by
      rw [slowMid, List.drop_eq_getElem_cons hlt]
    rw [Function.iterate_succ_apply', ih (Nat.le_of_succ_le hk), if_pos hklt,
      hmid, resumeFlow_explicit]
    by_cases h2 : k + 1 < rest.length
    · rw [if_pos h2]
      have hne : ((x :: rest).drop (k + 2)).isEmpty = false := by
        simp [List.drop_eq_nil_iff]
        omega
      rw [hne, if_neg (by simp)]
      simp only [slowMid, show k + 1 + 1 = k + 2 from rfl]
      rw [htake]
    · rw [if_neg h2]
      have hempty : ((x :: rest).drop (k + 2)).isEmpty = true := by
        simp [List.drop_eq_nil_iff]
        omega
      rw [hempty, if_pos rfl]
      simp only [slowFinal]
      rw [← htake, List.take_of_length_le (by simp; omega)]

end Tubes

namespace Tubes

/-- The operation `deliver` never touches the Pump's records, the downstream
progress record or the downstream connection flag. -/
theorem deliver_preserves {α : Type} (p : Bool) (s : Tube α) (x : α) :
    (Tube.deliver p s x).pumpReceived = s.pumpReceived ∧
    (Tube.deliver p s x).pumpProgressed = s.pumpProgressed ∧
    (Tube.deliver p s x).downstreamProgress = s.downstreamProgress ∧
    (Tube.deliver p s x).downstreamConnected = s.downstreamConnected := by
  simp only [Tube.deliver, Tube.pauseUpstream]
  split
  · split <;> simp
  · split
    · split <;> simp
    · simp

/-- Folding `deliver` over any list of items keeps the Pump's records, the
downstream progress record and the downstream connection flag. -/
theorem foldl_deliver_preserves {α : Type} (p : Bool) (xs : List α) (s : Tube α) :
    (xs.foldl (Tube.deliver p) s).pumpReceived = s.pumpReceived ∧
    (xs.foldl (Tube.deliver p) s).pumpProgressed = s.pumpProgressed ∧
    (xs.foldl (Tube.deliver p) s).downstreamProgress = s.downstreamProgress ∧
    (xs.foldl (Tube.deliver p) s).downstreamConnected = s.downstreamConnected := by
  induction xs generalizing s with
  | nil => simp
  | cons x xs ih =>
    rw [List.foldl_cons]
    obtain ⟨h1, h2, h3, h4⟩ := ih (Tube.deliver p s x)
    obtain ⟨g1, g2, g3, g4⟩ := deliver_preserves p s x
    exact ⟨h1.trans g1, h2.trans g2, h3.trans g3, h4.trans g4⟩

end Tubes

open Tubes Components Ownership

/-- Claim C1: every sequence of items passed to `Tube.deliver` while the Tube
is buffering is received by a later-attached downstream Drain exactly in that
order, with nothing lost or reordered — both when the Drain drains the whole
buffer in one pass and when it interrupts the pass with `pauseFlow` after
every item and completes it through repeated `resumeFlow` calls. -/
theorem deliver_order_preserved {α : Type} (xs : List α) :
    (Tube.flowTo false
        (xs.foldl (Tube.deliver false)
          (Tube.new.flowingFrom Fount.new))).downstreamReceived = xs ∧
    ((Tube.resumeFlow true)^[xs.length - 1]
        (Tube.flowTo true
          (xs.foldl (Tube.deliver false)
            (Tube.new.flowingFrom Fount.new)))).downstreamReceived = xs := by
  cases xs with
  | nil => exact ⟨rfl, rfl⟩
  | cons x rest =>
    constructor
    · rw [foldl_deliver_fresh]
      simp [Tube.flowTo, Tube.unbuffer, passLoop_false, Tube.resumeUpstream]
    · have h := slow_iterate x rest rest.length (le_refl _)
      rw [if_neg (lt_irrefl _)] at h
      have hl : (x :: rest).length - 1 = rest.length := by simp
      rw [hl, h]
      rfl

/-- Claim C2: starting from an unpaused upstream Fount attached to a Tube
with no downstream Drain, any `n ≥ 1` consecutive `deliver` calls produce
exactly one `pauseFlow()` on the upstream Fount — never a second — while the
Tube keeps all the items buffered, paused and disconnected downstream. -/
theorem deliver_pauses_upstream_exactly_once {α : Type} (x : α) (xs : List α) :
    ((x :: xs).foldl (Tube.deliver false)
        (Tube.new.flowingFrom Fount.new)).upstreamFount
      = some { flowIsPaused := true, pauseCount := 1, resumeCount := 0 } ∧
    ((x :: xs).foldl (Tube.deliver false)
        (Tube.new.flowingFrom Fount.new)).upstreamPaused = true ∧
    ((x :: xs).foldl (Tube.deliver false)
        (Tube.new.flowingFrom Fount.new)).downstreamConnected = false ∧
    ((x :: xs).foldl (Tube.deliver false)
        (Tube.new.flowingFrom Fount.new)).pendingBuffer = x :: xs := by
  rw [foldl_deliver_fresh]
  exact ⟨rfl, rfl, rfl, rfl⟩

/-- Claim C3: after buffering paused the upstream Fount, (a) a later-attached
Drain that consumes the whole buffer without pausing causes exactly one
upstream `resumeFlow()`; (b) a Drain calling `pauseFlow` mid-drain stops
delivery immediately, the upstream stays paused with no `resumeFlow` while
items remain, and each later `resumeFlow` from the Drain resumes the pass
from where it left off until the buffer is exhausted. -/
theorem buffering_resume_semantics {α : Type} (x : α) (rest : List α) (k : Nat)
    (hk : k ≤ rest.length) :
    (Tube.flowTo false ((x :: rest).foldl (Tube.deliver false)
        (Tube.new.flowingFrom Fount.new))).upstreamFount
      = some { flowIsPaused := false, pauseCount := 1, resumeCount := 1 } ∧
    (Tube.flowTo false ((x :: rest).foldl (Tube.deliver false)
        (Tube.new.flowingFrom Fount.new))).upstreamPaused = false ∧
    (Tube.flowTo false ((x :: rest).foldl (Tube.deliver false)
        (Tube.new.flowingFrom Fount.new))).downstreamReceived = x :: rest ∧
    ((Tube.resumeFlow true)^[k] (Tube.flowTo true
        ((x :: rest).foldl (Tube.deliver false)
          (Tube.new.flowingFrom Fount.new)))).downstreamReceived
      = (x :: rest).take (k + 1) ∧
    ((Tube.resumeFlow true)^[k] (Tube.flowTo true
        ((x :: rest).foldl (Tube.deliver false)
          (Tube.new.flowingFrom Fount.new)))).pendingBuffer
      = (x :: rest).drop (k + 1) ∧
    ((Tube.resumeFlow true)^[k] (Tube.flowTo true
        ((x :: rest).foldl (Tube.deliver false)
          (Tube.new.flowingFrom Fount.new)))).upstreamFount
      = some (if k = rest.length
          then { flowIsPaused := false, pauseCount := 1, resumeCount := 1 }
          else { flowIsPaused := true, pauseCount := 1, resumeCount := 0 }) := by
  refine ⟨?_, ?_, ?_, ?_, ?_, ?_⟩
  · rw [foldl_deliver_fresh]
    simp [Tube.flowTo, Tube.unbuffer, passLoop_false, Tube.resumeUpstream]
  · rw [foldl_deliver_fresh]
    simp [Tube.flowTo, Tube.unbuffer, passLoop_false, Tube.resumeUpstream]
  · rw [foldl_deliver_fresh]
    simp [Tube.flowTo, Tube.unbuffer, passLoop_false, Tube.resumeUpstream]
  · rw [slow_iterate x rest k hk]
    by_cases hkk : k < rest.length
    · rw [if_pos hkk]
      rfl
    · have hke : k = rest.length := by omega
      rw [if_neg hkk]
      subst hke
      rw [List.take_of_length_le (by simp)]
      rfl
  · rw [slow_iterate x rest k hk]
    by_cases hkk : k < rest.length
    · rw [if_pos hkk]
      rfl
    · have hke : k = rest.length := by omega
      rw [if_neg hkk]
      subst hke
      rw [List.drop_of_length_le (by simp)]
      rfl
  · rw [slow_iterate x rest k hk]
    by_cases hkk : k < rest.length
    · rw [if_pos hkk, if_neg (by omega)]
      rfl
    · have hke : k = rest.length := by omega
      rw [if_neg hkk]
      subst hke
      rw [if_pos rfl]
      rfl

/-- Claim C3 witness: the three-item `SlowDrain` scenario of the test suite,
interrupted after the second item (`k = 1`). -/
theorem buffering_resume_semantics_witness :
    (Tube.flowTo false (([1, 2, 3] : List Int).foldl (Tube.deliver false)
        (Tube.new.flowingFrom Fount.new))).upstreamFount
      = some { flowIsPaused := false, pauseCount := 1, resumeCount := 1 } ∧
    (Tube.flowTo false (([1, 2, 3] : List Int).foldl (Tube.deliver false)
        (Tube.new.flowingFrom Fount.new))).upstreamPaused = false ∧
    (Tube.flowTo false (([1, 2, 3] : List Int).foldl (Tube.deliver false)
        (Tube.new.flowingFrom Fount.new))).downstreamReceived = [1, 2, 3] ∧
    ((Tube.resumeFlow true)^[1] (Tube.flowTo true
        (([1, 2, 3] : List Int).foldl (Tube.deliver false)
          (Tube.new.flowingFrom Fount.new)))).downstreamReceived = [1, 2] ∧
    ((Tube.resumeFlow true)^[1] (Tube.flowTo true
        (([1, 2, 3] : List Int).foldl (Tube.deliver false)
          (Tube.new.flowingFrom Fount.new)))).pendingBuffer = [3] ∧
    ((Tube.resumeFlow true)^[1] (Tube.flowTo true
        (([1, 2, 3] : List Int).foldl (Tube.deliver false)
          (Tube.new.flowingFrom Fount.new)))).upstreamFount
      = some { flowIsPaused := true, pauseCount := 1, resumeCount := 0 } :=
  buffering_resume_semantics 1 [2, 3] 1 (by decide)

/-- Claim C4: `Tube.receive` hands the item to `pump.received` and returns
the Pump's progress value when one is given, or the default progress
indicator `0.5` when the Pump returned the null signal. -/
theorem receive_returns_pump_progress {α : Type} (pump : PumpModel α) (p : Bool)
    (s : Tube α) (x : α) :
    (Tube.receive pump p s x).1.pumpReceived = s.pumpReceived ++ [x] ∧
    (Tube.receive pump p s x).2 = (pump x).2.getD 0.5 := by
  constructor
  · simp only [Tube.receive]
    split
    · exact (foldl_deliver_preserves p (pump x).1 _).1
    · exact (foldl_deliver_preserves p (pump x).1 _).1
  · rfl

/-- Claim C5: with a downstream Drain connected, `Tube.receive` forwards
`progress(None)` downstream exactly when the Pump's `received` made zero
`deliver` calls; when it delivered, no extra downstream progress call is
issued for that input. -/
theorem receive_progress_iff_no_deliver {α : Type} (pump : PumpModel α)
    (s : Tube α) (x : α) (h : s.downstreamConnected = true) :
    (Tube.receive pump false s x).1.downstreamProgress
      = (if (pump x).1.isEmpty then s.downstreamProgress ++ [none]
         else s.downstreamProgress) ∧
    ((Tube.receive pump false s x).1.downstreamProgress
        = s.downstreamProgress ++ [none]
      ↔ (pump x).1 = []) := by
  have hc : ((pump x).1.foldl (Tube.deliver false)
      { s with pumpReceived := s.pumpReceived ++ [x] }).downstreamConnected = true := by
    rw [(foldl_deliver_preserves false (pump x).1 _).2.2.2]
    exact h
  have hdp : ((pump x).1.foldl (Tube.deliver false)
      { s with pumpReceived := s.pumpReceived ++ [x] }).downstreamProgress
      = s.downstreamProgress :=
    (foldl_deliver_preserves false (pump x).1 _).2.2.1
  have hmain : (Tube.receive pump false s x).1.downstreamProgress
      = (if (pump x).1.isEmpty then s.downstreamProgress ++ [none]
         else s.downstreamProgress) := by
    simp only [Tube.receive, hc, Bool.and_true]
    cases hemp : (pump x).1.isEmpty with
    | true => simp [hemp, hdp]
    | false => simp [hemp, hdp]
  refine ⟨hmain, ?_⟩
  rw [hmain]
  cases hemp : (pump x).1.isEmpty with
  | true =>
    rw [if_pos rfl]
    simp only [List.isEmpty_iff] at hemp
    simp [hemp]
  | false =>
    rw [if_neg (by simp)]
    constructor
    · intro hcontra
      exact absurd (congrArg List.length hcontra) (by simp)
    · intro hcontra
      rw [hcontra] at hemp
      simp at hemp

/-- Claim C5 witness: a Pump that delivers nothing on a connected Tube; the
downstream Drain observes exactly one `progress(None)`. -/
theorem receive_progress_iff_no_deliver_witness :
    (Tube.receive defaultPump false (Tube.flowTo false (Tube.new (α := Int)))
        7).1.downstreamProgress
      = (if (defaultPump (7 : Int)).1.isEmpty
         then (Tube.flowTo false (Tube.new (α := Int))).downstreamProgress ++ [none]
         else (Tube.flowTo false (Tube.new (α := Int))).downstreamProgress) ∧
    ((Tube.receive defaultPump false (Tube.flowTo false (Tube.new (α := Int)))
        7).1.downstreamProgress
      = (Tube.flowTo false (Tube.new (α := Int))).downstreamProgress ++ [none]
      ↔ (defaultPump (7 : Int)).1 = []) :=
  receive_progress_iff_no_deliver defaultPump (Tube.flowTo false Tube.new) 7 rfl

/-- Claim C6: assigning a new Pump to a Tube sets the new Pump's `tube` back
reference to that Tube, clears the previous Pump's back reference, and stores
the new Pump in the Tube's pump slot; and in any state at most one Tube owns
any given Pump. -/
theorem setPump_exclusive (w w2 : World) (t p pOld t1 t2 q : Nat)
    (hOld : w.tubePump t = some pOld) (hne : pOld ≠ p)
    (h1 : owns w2 t1 q) (h2 : owns w2 t2 q) :
    (setPump w t p).pumpTube p = some t ∧
    (setPump w t p).pumpTube pOld = none ∧
    (setPump w t p).tubePump t = some p ∧
    t1 = t2 := by
  refine ⟨?_, ?_, ?_, ?_⟩
  · simp [setPump, hOld]
  · simp [setPump, hOld, hne]
  · simp [setPump, hOld]
  · exact Option.some.inj (h1.2.symm.trans h2.2)

/-- Claim C6 witness: a world where Tube 0 owns Pump 5; reassigning Tube 0's
pump to Pump 7 rewires the back references. -/
theorem setPump_exclusive_witness :
    (setPump
        ⟨fun u => if u = 0 then some 5 else none,
         fun q => if q = 5 then some 0 else none⟩ 0 7).pumpTube 7 = some 0 ∧
    (setPump
        ⟨fun u => if u = 0 then some 5 else none,
         fun q => if q = 5 then some 0 else none⟩ 0 7).pumpTube 5 = none ∧
    (setPump
        ⟨fun u => if u = 0 then some 5 else none,
         fun q => if q = 5 then some 0 else none⟩ 0 7).tubePump 0 = some 7 ∧
    (0 : Nat) = 0 :=
  setPump_exclusive
    ⟨fun u => if u = 0 then some 5 else none,
     fun q => if q = 5 then some 0 else none⟩
    ⟨fun u => if u = 0 then some 5 else none,
     fun q => if q = 5 then some 0 else none⟩
    0 7 5 0 0 5 (by decide) (by decide)
    (by constructor <;> decide) (by constructor <;> decide)

/-- Claim C7: when the Pump declares an `inputType` and the attaching Fount's
advertised output capability does not satisfy it under the Capability Query,
`flowingFrom` fails synchronously with the type-mismatch error and records no
attachment. -/
theorem flowingFrom_type_mismatch {α : Type} (issubclass : Nat → Nat → Bool)
    (inputType : Nat) (fountImplements : Option TupleTree) (s : Tube α)
    (f : Fount)
    (h : implements issubclass fountImplements inputType = false) :
    Tube.flowingFromChecked issubclass (some inputType) fountImplements s f
      = Except.error () := by
  simp [Tube.flowingFromChecked, h]

/-- Claim C7 witness: a Fount with no advertised capability attaching to a
Pump that declares input type 3 is rejected. -/
theorem flowingFrom_type_mismatch_witness :
    Tube.flowingFromChecked (fun _ _ => false) (some 3) none
        (Tube.new (α := Int)) Fount.new
      = Except.error () :=
  flowingFrom_type_mismatch (fun _ _ => false) 3 none Tube.new Fount.new rfl

/-- Claim C8 counterexample: in the composite `Tube(A(), B())` of the test
suite (default, non-forwarding Pumps) with the terminal Drain attached,
delivering 3 through stage A's Tube and then 4 through stage B's Tube leaves
the terminal Drain with `[4]` — the item delivered through stage A does not
surface at the terminal Drain, refuting the claim that both do. -/
theorem multi_stage_counterexample :
    (Composite.deliverB
        (Composite.deliverA defaultPump
          (Composite.flowTo false (Composite.new (α := Int))) 3)
        4).stageB.downstreamReceived = [4] ∧
    ¬ (Composite.deliverB
        (Composite.deliverA defaultPump
          (Composite.flowTo false (Composite.new (α := Int))) 3)
        4).stageB.downstreamReceived = [3, 4] := by
  constructor <;> decide

/-- Claim C8 (amended): `flowTo` on the composite attaches the drain at the
last stage's Fount face and returns the last stage's continuation, leaving
stage A untouched; an item delivered through the last stage's Tube surfaces
at the terminal Drain, while an item delivered through stage A's Tube is
handed to stage B's Pump via its `received` hook (and reaches the terminal
Drain only if that Pump forwards it — the default Pump does not). -/
theorem multi_stage_composition {α : Type} (x y : α) (c : Composite α)
    (p : Bool) :
    (Composite.flowTo p c).stageB = Tube.flowTo p c.stageB ∧
    (Composite.flowTo p c).stageA = c.stageA ∧
    (Composite.deliverA defaultPump
        (Composite.flowTo false (Composite.new (α := α))) x).stageB.pumpReceived
      = [x] ∧
    (Composite.deliverB
        (Composite.deliverA defaultPump
          (Composite.flowTo false (Composite.new (α := α))) x)
        y).stageB.downstreamReceived = [y] :=
  ⟨rfl, rfl, rfl, rfl⟩

/-- Claim C9: `Tube.progress` calls `pump.progressed(amount)` and then, if a
downstream Drain is connected, forwards `progress(amount)` to it; nothing is
forwarded downstream when no Drain is connected. -/
theorem progress_relays_to_pump_and_downstream {α : Type} (s : Tube α)
    (amount : Option ℚ) :
    (Tube.progress s amount).pumpProgressed = s.pumpProgressed ++ [amount] ∧
    (Tube.progress s amount).downstreamProgress
      = (if s.downstreamConnected then s.downstreamProgress ++ [amount]
         else s.downstreamProgress) := by
  simp only [Tube.progress]
  constructor
  · split <;> rfl
  · split <;> rfl

/-- Claim C10: when no adapter is registered for the class and none for any
of its base classes, `getAdapterClassWithInheritance` returns `None`; the
`default` argument is ignored — the result never depends on it. -/
theorem getAdapterClassWithInheritance_ignores_default
    (reg : List ((Nat × Nat) × Nat)) (allYourBase : List Nat)
    (klass interfaceClass : Nat) (d d2 : Option Nat)
    (h : registryGet reg (klass, interfaceClass) = none)
    (hb : ∀ b ∈ allYourBase, registryGet reg (b, interfaceClass) = none) :
    getAdapterClassWithInheritance reg allYourBase klass interfaceClass d
      = none ∧
    getAdapterClassWithInheritance reg allYourBase klass interfaceClass d
      = getAdapterClassWithInheritance reg allYourBase klass interfaceClass d2 := by
  have hscan : ∀ l : List Nat,
      (∀ b ∈ l, registryGet reg (b, interfaceClass) = none) →
      baseClassScan reg interfaceClass l = none := by
    intro l
    induction l with
    | nil => intro _; rfl
    | cons b bs ih =>
      intro hl
      simp only [baseClassScan, hl b (List.mem_cons_self b bs)]
      exact ih fun b2 hm => hl b2 (List.mem_cons_of_mem b hm)
  refine ⟨?_, rfl⟩
  simp only [getAdapterClassWithInheritance, h]
  exact hscan allYourBase hb

/-- Claim C10 witness: a registry holding only an adapter for class 0 and
interface 1; class 2 with bases 4 and 5 finds nothing and the result is
`None` whatever the default. -/
theorem getAdapterClassWithInheritance_ignores_default_witness :
    getAdapterClassWithInheritance [((0, 1), 9)] [4, 5] 2 1 (some 8) = none ∧
    getAdapterClassWithInheritance [((0, 1), 9)] [4, 5] 2 1 (some 8)
      = getAdapterClassWithInheritance [((0, 1), 9)] [4, 5] 2 1 none :=
  getAdapterClassWithInheritance_ignores_default [((0, 1), 9)] [4, 5] 2 1
    (some 8) none (by decide) (by decide)
